import Mathlib

/-!
Verification of the Personalised-News-Aggregator server: the rate-limiting
and caching subsystem, the Redis connection module, and the per-user access
guards. Definitions are shallow embeddings of the JavaScript source files
(`src/server/src/app.js`, `src/server/src/config/redis.js`,
`src/server/src/controllers/userController.js`); components whose source is
absent from the repository snapshot (the rate-limiter middleware and the
cache service) are modelled from the specification, as marked in their doc
comments. Timestamps and durations are in milliseconds, modelled as `Nat`.
-/

namespace NewsAgg

/-! ## The Express app pipeline (`src/server/src/app.js`) -/

/-- One middleware or route mount registered on the Express app in `app.js`. -/
inductive AppStep where
  | helmet
  | corsMw
  | compressionMw
  | jsonBody
  | urlencodedBody
  | requestLogger
  | rateLimiter
  | healthEndpoint
  | authRouter
  | articlesRouter
  | usersRouter
  | liveNewsRouter
  | rootEndpoint
  | notFoundHandler
  | errorHandler
deriving DecidableEq, Repr

/-- The ordered pipeline of `app.use` / `app.get` registrations in `app.js`.
The line `app.use(rateLimiter)` is commented out in the source
(the comment reads: rate limiting temporarily disabled for development),
so `AppStep.rateLimiter` does not appear. -/
def appPipeline : List AppStep :=
  [ AppStep.helmet, AppStep.corsMw, AppStep.compressionMw, AppStep.jsonBody,
    AppStep.urlencodedBody, AppStep.requestLogger, AppStep.healthEndpoint,
    AppStep.authRouter, AppStep.articlesRouter, AppStep.usersRouter,
    AppStep.liveNewsRouter, AppStep.rootEndpoint, AppStep.notFoundHandler,
    AppStep.errorHandler ]

/-- The four business route mounts of `app.js`. -/
def businessRouters : List AppStep :=
  [AppStep.authRouter, AppStep.articlesRouter, AppStep.usersRouter, AppStep.liveNewsRouter]

/-- The steps an accepted request passes through before reaching the given
step: Express runs registrations in order, so these are the pipeline entries
strictly before the step. -/
def stepsBefore (target : AppStep) : List AppStep :=
  appPipeline.takeWhile (fun s => s ≠ target)

/-! ## Redis connection module (`src/server/src/config/redis.js`) -/

/-- The fallback connection string in `redis.js`:
`process.env.REDIS_URL OR this default`. -/
def defaultRedisUrl : String := "redis://localhost:6379"

/-- `const REDIS_URL = process.env.REDIS_URL || defaultRedisUrl` — a missing
or empty environment variable resolves to the default (JavaScript treats the
empty string as falsy). -/
def resolveRedisUrl (envUrl : Option String) : String :=
  match envUrl with
  | none => defaultRedisUrl
  | some u => if u = "" then defaultRedisUrl else u

/-- A constructed ioredis client handle; `id` distinguishes distinct
constructions of the client object. -/
structure RedisHandle where
  id : Nat
deriving DecidableEq, Repr

/-- The module-level mutable state of `redis.js`: the `let redis = null`
binding, plus a count of how many times a client was constructed (used to
state that no second construction happens). -/
structure RedisModule where
  redis : Option RedisHandle
  constructed : Nat
deriving DecidableEq, Repr

/-- The initial module state: `let redis = null`. -/
def initialRedisModule : RedisModule := { redis := none, constructed := 0 }

/-- `createRedisConnection()`: constructs a new client (with `lazyConnect`,
so no network is touched), stores it in the module-level `redis` binding and
returns it. -/
def createRedisConnection (m : RedisModule) : RedisHandle × RedisModule :=
  let h : RedisHandle := { id := m.constructed }
  (h, { redis := some h, constructed := m.constructed + 1 })

/-- `getRedis()`: returns the module-level client, constructing it on first
use. -/
def getRedis (m : RedisModule) : RedisHandle × RedisModule :=
  match m.redis with
  | some h => (h, m)
  | none => createRedisConnection m

/-- The connection-lifecycle events ioredis emits, for which
`createRedisConnection` registers handlers. -/
inductive RedisEvent where
  | connect
  | ready
  | errorEvent
  | closeEvent
  | reconnecting
deriving DecidableEq, Repr

/-- What an event handler does: emit a log entry, or raise an exception. -/
inductive EventEffect where
  | logged (level : String) (msg : String)
  | raised (msg : String)
deriving DecidableEq, Repr

/-- The event handlers registered in `createRedisConnection`: every
connection state transition is logged (`logger.info` / `logger.error` /
`logger.warn`); none of them throws. -/
def redisEventHandler : RedisEvent → EventEffect
  | RedisEvent.connect => EventEffect.logged "info" "Redis connected"
  | RedisEvent.ready => EventEffect.logged "info" "Redis ready"
  | RedisEvent.errorEvent => EventEffect.logged "error" "Redis connection error:"
  | RedisEvent.closeEvent => EventEffect.logged "warn" "Redis connection closed"
  | RedisEvent.reconnecting => EventEffect.logged "info" "Redis reconnecting..."

/-- Observable outcome of one `connectRedis()` call: the value returned to
the caller (`some` handle id, or `none` for the JavaScript `null`), whether a
network connect was attempted, and whether an exception escaped. -/
structure ConnectOutcome where
  result : Option Nat
  attempted : Bool
  threw : Bool
deriving DecidableEq, Repr

/-- `connectRedis()`: skips entirely (returning `null`) when the resolved URL
is empty or equals the localhost default; otherwise constructs the client if
needed and attempts `redis.connect()`, whose success is modelled by the
`connOk` oracle; the `catch` converts a failed connect into a `null` return
instead of a throw. -/
def connectRedis (envUrl : Option String) (connOk : Bool) (m : RedisModule) :
    ConnectOutcome × RedisModule :=
  let url := resolveRedisUrl envUrl
  if url = "" ∨ url = defaultRedisUrl then
    ({ result := none, attempted := false, threw := false }, m)
  else
    let (h, m1) :=
      match m.redis with
      | some h => (h, m)
      | none => createRedisConnection m
    if connOk then
      ({ result := some h.id, attempted := true, threw := false }, m1)
    else
      ({ result := none, attempted := true, threw := false }, m1)

/-! ## Counter store

The rate-limiter middleware file is not present in the repository snapshot
(only its import in `app.js`), so the store and limiter below are modelled
from the specification. -/

/-- Modelled from the spec: a CounterRecord `{count, expiresAt}` as kept by
the in-process LocalStore (the rate-limiter middleware source is absent from
the snapshot). -/
structure CounterRecord where
  count : Nat
  expiresAt : Nat
deriving DecidableEq, Repr

/-- Modelled from the spec: the LocalStore is a single-process map from key
to CounterRecord, embedded as an association list. -/
def LocalStore : Type := List (String × CounterRecord)

/-- Look a key up in a LocalStore. -/
def lookupRec : LocalStore → String → Option CounterRecord
  | [], _ => none
  | (k, r) :: rest, key => if k = key then some r else lookupRec rest key

/-- Store a record under a key, replacing any existing record for that key. -/
def setRec : LocalStore → String → CounterRecord → LocalStore
  | [], key, r => [(key, r)]
  | (k, r0) :: rest, key, r =>
      if k = key then (key, r) :: rest else (k, r0) :: setRec rest key r

/-- Modelled from the spec: the result of one `increment(key, windowMs)`
call: the post-increment count and the remaining window time in
milliseconds. -/
structure IncrementResult where
  totalHits : Nat
  timeRemaining : Nat
deriving DecidableEq, Repr

/-- Modelled from the spec: LocalStore `increment` checks `now > expiresAt`;
if so (or if the key is fresh) it resets to `{count: 1, expiresAt: now +
windowMs}`, replacing the expired record; otherwise it increments the count
in place and reports the remaining time of the current window. -/
def LocalStore.increment (s : LocalStore) (key : String) (windowMs now : Nat) :
    LocalStore × IncrementResult :=
  match lookupRec s key with
  | none =>
      (setRec s key { count := 1, expiresAt := now + windowMs },
       { totalHits := 1, timeRemaining := windowMs })
  | some r =>
      if now > r.expiresAt then
        (setRec s key { count := 1, expiresAt := now + windowMs },
         { totalHits := 1, timeRemaining := windowMs })
      else
        (setRec s key { count := r.count + 1, expiresAt := r.expiresAt },
         { totalHits := r.count + 1, timeRemaining := r.expiresAt - now })

/-- Modelled from the spec: a rate-limit policy descriptor — window length in
milliseconds, quota, key scope, skip flags and the human-readable rejection
message (the rate-limiter middleware source is absent from the snapshot). -/
structure Policy where
  windowMs : Nat
  max : Nat
  scope : String
  message : String
  skipSuccessful : Bool := false
  skipFailed : Bool := false
deriving DecidableEq, Repr

/-- Modelled from the spec: the composed rate-limit key `scope:identity`. -/
def composeKey (scope identity : String) : String :=
  scope ++ ":" ++ identity

/-- Milliseconds to whole seconds, rounding any partial second up, as used
for the `retryAfter` and reset-time values reported to clients. -/
def msToSec (ms : Nat) : Nat := (ms + 999) / 1000

/-- The per-request decision of a limiter: call through to the next handler
carrying the remaining-quota and reset-time header values, or short-circuit
with an HTTP status, the policy message, a machine-readable code and a
`retryAfter` value in seconds. -/
inductive Outcome where
  | allow (remaining : Nat) (resetSec : Nat)
  | deny (status : Nat) (message : String) (code : String) (retryAfter : Nat)
deriving DecidableEq, Repr

/-- `true` exactly on the short-circuit (deny) outcome. -/
def Outcome.isDeny : Outcome → Bool
  | Outcome.allow _ _ => false
  | Outcome.deny _ _ _ _ => true

/-- Modelled from the spec: one RateLimiter request against a LocalStore —
increment the counter for the key, then allow when `totalHits ≤ max`
(reporting `max - totalHits` remaining, floored at 0 by Nat subtraction, and
the reset time) and deny otherwise with HTTP 429, the policy message, the
code RATE_LIMIT_EXCEEDED and `retryAfter` equal to the remaining window time
in seconds. -/
def limitStep (p : Policy) (s : LocalStore) (key : String) (now : Nat) :
    LocalStore × Outcome :=
  let (s1, r) := LocalStore.increment s key p.windowMs now
  if r.totalHits ≤ p.max then
    (s1, Outcome.allow (p.max - r.totalHits) (msToSec r.timeRemaining))
  else
    (s1, Outcome.deny 429 p.message "RATE_LIMIT_EXCEEDED" (msToSec r.timeRemaining))

/-- Run a sequence of requests with the same key at the given times,
threading the store, and collect the per-request outcomes. -/
def runRequests (p : Policy) (key : String) : List Nat → LocalStore → List Outcome
  | [], _ => []
  | t :: ts, s =>
      let (s1, out) := limitStep p s key t
      out :: runRequests p key ts s1

/-! ## Distributed store and fail-open behaviour -/

/-- The result of one round trip to the distributed backend: a value, or an
I/O failure at call time. -/
inductive IOResult (α : Type) where
  | ok (a : α)
  | ioError (msg : String)
deriving DecidableEq, Repr

/-- A distributed backend behaviour: for a key and a window it answers the
pipelined increment-and-expire round trip with (post-increment count,
remaining TTL in milliseconds), or fails. -/
def Backend : Type := String → Nat → IOResult (Nat × Nat)

/-- Modelled from the spec: DistributedStore `increment` — one pipelined
atomic increment with TTL assignment; on any I/O error it returns the allow
result `{totalHits := 1}` (with a full window remaining) instead of
throwing, so failures never block the caller. -/
def distIncrement (b : Backend) (key : String) (windowMs : Nat) : IncrementResult :=
  match b key windowMs with
  | IOResult.ok (hits, ttlMs) => { totalHits := hits, timeRemaining := ttlMs }
  | IOResult.ioError _ => { totalHits := 1, timeRemaining := windowMs }

/-- Modelled from the spec: one RateLimiter request against the
DistributedStore; same decision rule as `limitStep`. -/
def distLimitStep (p : Policy) (b : Backend) (key : String) : Outcome :=
  let r := distIncrement b key p.windowMs
  if r.totalHits ≤ p.max then
    Outcome.allow (p.max - r.totalHits) (msToSec r.timeRemaining)
  else
    Outcome.deny 429 p.message "RATE_LIMIT_EXCEEDED" (msToSec r.timeRemaining)

/-! ## Cache service

`src/server/src/services/cacheService.js` is absent from the snapshot (only
its callers in the user controller are present), so the cache is modelled
from the specification. -/

/-- Modelled from the spec: the cache backend, either unavailable or an
available store of key/value entries (values of type `α`). -/
inductive CacheBackend (α : Type) where
  | down
  | up (entries : List (String × α))
deriving DecidableEq, Repr

/-- Look a key up in a list of cache entries. -/
def lookupEntry {α : Type} : List (String × α) → String → Option α
  | [], _ => none
  | (k, v) :: rest, key => if k = key then some v else lookupEntry rest key

/-- Store an entry, replacing any existing entry for the key. -/
def setEntry {α : Type} : List (String × α) → String → α → List (String × α)
  | [], key, v => [(key, v)]
  | (k, v0) :: rest, key, v =>
      if k = key then (key, v) :: rest else (k, v0) :: setEntry rest key v

/-- Modelled from the spec: `cacheService.get(key)` — returns the cached
value, or absent; when the backend is unavailable it returns absent instead
of raising. -/
def cacheGet {α : Type} : CacheBackend α → String → Option α
  | CacheBackend.down, _ => none
  | CacheBackend.up es, key => lookupEntry es key

/-- Modelled from the spec: `cacheService.set(key, value, ttlSeconds)` —
overwrites the entry; when the backend is unavailable it is a no-op and
never raises (the TTL only governs later expiry, which this model does not
observe). -/
def cacheSet {α : Type} : CacheBackend α → String → α → Nat → CacheBackend α
  | CacheBackend.down, _, _, _ => CacheBackend.down
  | CacheBackend.up es, key, v, _ => CacheBackend.up (setEntry es key v)

/-! ## User controller (`src/server/src/controllers/userController.js`) -/

/-- The authenticated caller attached to the request (`req.user`), with
`id` standing for `_id.toString()`. -/
structure ReqUser where
  id : String
  role : String
deriving DecidableEq, Repr

/-- An `AppError` thrown by a handler: message, HTTP status, error code. -/
structure AppErr where
  message : String
  status : Nat
  code : String
deriving DecidableEq, Repr

/-- The per-user access guard error thrown in `userController.js`:
`AppError('Access denied', HTTP_STATUS.FORBIDDEN, ERROR_CODES.AUTHORIZATION_ERROR)`. -/
def accessDenied : AppErr :=
  { message := "Access denied", status := 403, code := "AUTHORIZATION_ERROR" }

/-- The not-found error thrown when a target user does not exist. -/
def userNotFound : AppErr :=
  { message := "User not found", status := 404, code := "NOT_FOUND" }

/-- The guard condition repeated at the top of the per-user handlers:
`req.user._id.toString() !== userId && req.user.role !== 'admin'`. -/
def guardFails (u : ReqUser) (userId : String) : Bool :=
  u.id != userId && u.role != "admin"

/-- A database read or write issued by a handler, named after the source
call it embeds. -/
inductive DbOp where
  | readOp (name : String)
  | writeOp (name : String)
deriving DecidableEq, Repr

/-- What a handler produced: the database operations it performed, in order,
and either a thrown `AppErr` or a response value. -/
structure HandlerOut (α : Type) where
  ops : List DbOp
  result : Except AppErr α
deriving Repr

/-- A `SavedArticle` document, reduced to its `savedAt` timestamp. -/
structure SavedRec where
  savedAt : Nat
deriving DecidableEq, Repr

/-- A user's stored reading preferences (`preferences.categories`,
`preferences.sources`). -/
structure UserPrefs where
  categories : List String
  sources : List String
deriving DecidableEq, Repr

/-- The projection of a user document the handlers select:
`preferences` and `interests`. -/
structure UserDoc where
  preferences : UserPrefs
  interests : List String
deriving DecidableEq, Repr

/-- A saved-article row as selected for analytics (`savedAt category`). -/
structure SavedLite where
  savedAt : Nat
  category : Option String
deriving DecidableEq, Repr

/-- An article as used by the recommendation query, reduced to its id. -/
structure ArticleRec where
  id : String
deriving DecidableEq, Repr

/-- The query string of `getSavedArticles` (`page, limit, category, tags,
source`), with the numeric fields already parsed (`none` also stands for a
value `parseInt` could not parse). -/
structure PageQuery where
  page : Option Nat
  limit : Option Nat
  category : Option String
  tags : Option String
  source : Option String
deriving DecidableEq, Repr

/-- `parseInt(x) || d`: a missing or zero value falls back to the default. -/
def parseIntOr (o : Option Nat) (d : Nat) : Nat :=
  match o with
  | none => d
  | some n => if n = 0 then d else n

/-- The options object `getSavedArticles` builds for
`SavedArticle.getUserSavedArticles`. -/
structure SavedOptions where
  category : Option String
  tags : Option (List String)
  source : Option String
  limit : Nat
  skip : Nat
deriving DecidableEq, Repr

/-- Build the options from the query: tags are split on commas, `limit`
defaults to 20, and `skip` is `(page - 1) * limit` with `page` defaulting
to 1. -/
def buildSavedOptions (q : PageQuery) : SavedOptions :=
  { category := q.category,
    tags := q.tags.map (fun t => t.splitOn ","),
    source := q.source,
    limit := parseIntOr q.limit 20,
    skip := (parseIntOr q.page 1 - 1) * parseIntOr q.limit 20 }

/-- The database oracle: the result each persistence call of the user
controller would return, as a function of its arguments. -/
structure Db where
  hasUserSavedArticle : String → String → Option SavedRec
  findUserById : String → Option UserDoc
  findByIdAndUpdatePrefs : String → Option UserPrefs → Option (List String) → Option UserDoc
  countSaved : String → Nat
  userCategoryStats : String → List (String × Nat)
  userTagStats : String → Nat → List (String × Nat)
  recentSaved : String → List String
  savedForAnalytics : String → List SavedLite
  findArticles : UserPrefs → Nat → List ArticleRec
  distinctSavedArticleIds : String → List String
  getUserSavedArticles : String → SavedOptions → List ArticleRec

/-- Response of `isArticleSaved`. -/
structure IsSavedResp where
  isSaved : Bool
  savedAt : Option Nat
deriving DecidableEq, Repr

/-- `isArticleSaved`: guard first, then one read of
`SavedArticle.hasUserSavedArticle`, answering whether the article is saved
and when. -/
def isArticleSaved (db : Db) (u : ReqUser) (userId articleId : String) :
    HandlerOut IsSavedResp :=
  if guardFails u userId then { ops := [], result := Except.error accessDenied }
  else
    let saved := db.hasUserSavedArticle userId articleId
    { ops := [DbOp.readOp "SavedArticle.hasUserSavedArticle"],
      result := Except.ok { isSaved := saved.isSome, savedAt := saved.map SavedRec.savedAt } }

/-- `getPreferences`: guard first, then `User.findById(userId)` selecting
preferences and interests; 404 when the user does not exist. -/
def getPreferences (db : Db) (u : ReqUser) (userId : String) : HandlerOut UserDoc :=
  if guardFails u userId then { ops := [], result := Except.error accessDenied }
  else
    match db.findUserById userId with
    | none => { ops := [DbOp.readOp "User.findById"], result := Except.error userNotFound }
    | some doc => { ops := [DbOp.readOp "User.findById"], result := Except.ok doc }

/-- `updatePreferences`: guard first, then one `User.findByIdAndUpdate`
write applying the supplied preferences and interests; 404 when the user
does not exist. -/
def updatePreferences (db : Db) (u : ReqUser) (userId : String)
    (prefs : Option UserPrefs) (interests : Option (List String)) : HandlerOut UserDoc :=
  if guardFails u userId then { ops := [], result := Except.error accessDenied }
  else
    match db.findByIdAndUpdatePrefs userId prefs interests with
    | none => { ops := [DbOp.writeOp "User.findByIdAndUpdate"], result := Except.error userNotFound }
    | some doc => { ops := [DbOp.writeOp "User.findByIdAndUpdate"], result := Except.ok doc }

/-- Response of `getUserStats` (the `generatedAt` wall-clock field is not
modelled). -/
structure StatsResp where
  totalSaved : Nat
  categoryBreakdown : List (String × Nat)
  topTags : List (String × Nat)
  recentActivity : List String
deriving DecidableEq, Repr

/-- `getUserStats`: guard first, then cache-aside on key
`user:stats:<userId>`; on a miss it performs the four reads of the
`Promise.all`, caches the stats for 600 seconds and returns them. -/
def getUserStats (db : Db) (cache : CacheBackend StatsResp) (u : ReqUser)
    (userId : String) : HandlerOut StatsResp × CacheBackend StatsResp :=
  if guardFails u userId then
    ({ ops := [], result := Except.error accessDenied }, cache)
  else
    let cacheKey := "user:stats:" ++ userId
    match cacheGet cache cacheKey with
    | some cached => ({ ops := [], result := Except.ok cached }, cache)
    | none =>
        let stats : StatsResp :=
          { totalSaved := db.countSaved userId,
            categoryBreakdown := db.userCategoryStats userId,
            topTags := db.userTagStats userId 10,
            recentActivity := db.recentSaved userId }
        ({ ops := [DbOp.readOp "SavedArticle.countDocuments",
                   DbOp.readOp "SavedArticle.getUserCategoryStats",
                   DbOp.readOp "SavedArticle.getUserTagStats",
                   DbOp.readOp "SavedArticle.find"],
           result := Except.ok stats },
         cacheSet cache cacheKey stats 600)

/-- Response of `getUserAnalytics`. -/
structure AnalyticsResp where
  totalArticles : Nat
  period : Nat
  categoryBreakdown : List (String × Nat)
deriving DecidableEq, Repr

/-- Add one to the tally of a category in the breakdown map
(`breakdown[c] = (breakdown[c] || 0) + 1`). -/
def bumpCategory : List (String × Nat) → String → List (String × Nat)
  | [], c => [(c, 1)]
  | (k, n) :: rest, c =>
      if k = c then (k, n + 1) :: rest else (k, n) :: bumpCategory rest c

/-- The `forEach` loop of `getUserAnalytics`: articles without a category
are skipped, the rest are tallied. -/
def buildBreakdown (arts : List SavedLite) : List (String × Nat) :=
  arts.foldl
    (fun m a =>
      match a.category with
      | some c => bumpCategory m c
      | none => m)
    []

/-- `getUserAnalytics`: guard first, then one `SavedArticle.find` read and a
pure aggregation into the category breakdown. -/
def getUserAnalytics (db : Db) (u : ReqUser) (userId : String) (period : Nat) :
    HandlerOut AnalyticsResp :=
  if guardFails u userId then { ops := [], result := Except.error accessDenied }
  else
    let arts := db.savedForAnalytics userId
    { ops := [DbOp.readOp "SavedArticle.find"],
      result := Except.ok
        { totalArticles := arts.length, period := period,
          categoryBreakdown := buildBreakdown arts } }

/-- Response of `getRecommendations`. -/
structure RecResp where
  recommendations : List ArticleRec
  interests : List String
  preferences : UserPrefs
deriving DecidableEq, Repr

/-- `getRecommendations`: guard first, then cache-aside on key
`recommendations:<userId>:<limit>`; on a miss it reads the user (404 when
absent), queries articles by the preferences, filters out already-saved
article ids, caches the response for 1800 seconds and returns it. -/
def getRecommendations (db : Db) (cache : CacheBackend RecResp) (u : ReqUser)
    (userId : String) (lim : Nat) : HandlerOut RecResp × CacheBackend RecResp :=
  if guardFails u userId then
    ({ ops := [], result := Except.error accessDenied }, cache)
  else
    let cacheKey := "recommendations:" ++ userId ++ ":" ++ toString lim
    match cacheGet cache cacheKey with
    | some cached => ({ ops := [], result := Except.ok cached }, cache)
    | none =>
        match db.findUserById userId with
        | none =>
            ({ ops := [DbOp.readOp "User.findById"], result := Except.error userNotFound },
             cache)
        | some doc =>
            let recs := db.findArticles doc.preferences lim
            let savedIds := db.distinctSavedArticleIds userId
            let filtered := recs.filter (fun a => !(savedIds.contains a.id))
            let resp : RecResp :=
              { recommendations := filtered, interests := doc.interests,
                preferences := doc.preferences }
            ({ ops := [DbOp.readOp "User.findById", DbOp.readOp "Article.find",
                       DbOp.readOp "SavedArticle.distinct"],
               result := Except.ok resp },
             cacheSet cache cacheKey resp 1800)

/-- The paginated response body (`paginator.createResponse(savedArticles,
total, {page, limit})`; the paginator is a pure packaging of its inputs). -/
structure PageResponse where
  items : List ArticleRec
  total : Nat
  page : Option Nat
  limit : Option Nat
deriving DecidableEq, Repr

/-- `paginator.createResponse`. -/
def paginatorCreateResponse (items : List ArticleRec) (total : Nat)
    (page limit : Option Nat) : PageResponse :=
  { items := items, total := total, page := page, limit := limit }

/-- Render the query for the cache key
`saved:<userId>:<JSON.stringify(req.query)>`. -/
def renderQuery (q : PageQuery) : String :=
  toString q.page ++ "," ++ toString q.limit ++ "," ++ toString q.category ++ ","
    ++ toString q.tags ++ "," ++ toString q.source

/-- The response `getSavedArticles` computes on a cache miss — the correct,
freshly computed data for the request: the saved articles under the built
options and the total count, paginated. Stated separately so the handler can
be compared against it. -/
def freshSavedResponse (db : Db) (userId : String) (q : PageQuery) : PageResponse :=
  paginatorCreateResponse (db.getUserSavedArticles userId (buildSavedOptions q))
    (db.countSaved userId) q.page q.limit

/-- `getSavedArticles`: cache-aside on key `saved:<userId>:<query>` — on a
hit return the cached response with no reads; on a miss perform the two
reads, build the paginated response, cache it for 300 seconds and return
it. -/
def getSavedArticles (db : Db) (cache : CacheBackend PageResponse)
    (userId : String) (q : PageQuery) : HandlerOut PageResponse × CacheBackend PageResponse :=
  let cacheKey := "saved:" ++ userId ++ ":" ++ renderQuery q
  match cacheGet cache cacheKey with
  | some cached => ({ ops := [], result := Except.ok cached }, cache)
  | none =>
      let items := db.getUserSavedArticles userId (buildSavedOptions q)
      let total := db.countSaved userId
      let response := paginatorCreateResponse items total q.page q.limit
      ({ ops := [DbOp.readOp "SavedArticle.getUserSavedArticles",
                 DbOp.readOp "SavedArticle.countDocuments"],
         result := Except.ok response },
       cacheSet cache cacheKey response 300)

/-! ## Forgot-password handler (`authController.forgotPassword`) -/

/-- A user account as far as `forgotPassword` observes one. -/
structure UserAcct where
  email : String
deriving DecidableEq, Repr

/-- The HTTP response of `forgotPassword`: status, body message, and the
optional `resetToken` field that the development-mode spread may add. -/
structure ForgotResp where
  status : Nat
  message : String
  resetToken : Option String
deriving DecidableEq, Repr

/-- `forgotPassword`: when no user matches the email it answers 200 with the
non-revealing message; when a user matches it generates a reset token and
answers 200 with the same message, attaching the token to the body only when
`NODE_ENV === 'development'` (the object spread adds nothing otherwise). -/
def forgotPassword (nodeEnv : String) (foundUser : Option UserAcct)
    (tokenFor : UserAcct → String) : ForgotResp :=
  match foundUser with
  | none =>
      { status := 200, message := "If the email exists, a reset link has been sent",
        resetToken := none }
  | some u =>
      { status := 200, message := "If the email exists, a reset link has been sent",
        resetToken := if nodeEnv = "development" then some (tokenFor u) else none }

/-- A concrete empty database oracle, used to evaluate the handlers on
closed inputs. -/
def db0 : Db :=
  { hasUserSavedArticle := fun _ _ => none,
    findUserById := fun _ => none,
    findByIdAndUpdatePrefs := fun _ _ _ => none,
    countSaved := fun _ => 0,
    userCategoryStats := fun _ => [],
    userTagStats := fun _ _ => [],
    recentSaved := fun _ => [],
    savedForAnalytics := fun _ => [],
    findArticles := fun _ _ => [],
    distinctSavedArticleIds := fun _ => [],
    getUserSavedArticles := fun _ _ => [] }

/-! ## Helper lemmas -/

theorem lookupRec_setRec_self (s : LocalStore) (k : String) (r : CounterRecord) :
    lookupRec (setRec s k r) k = some r := by
  induction s with
  | nil => simp [setRec, lookupRec]
  | cons hd tl ih =>
      obtain ⟨k0, r0⟩ := hd
      by_cases hk : k0 = k
      · simp [setRec, lookupRec, hk]
      · simp [setRec, lookupRec, hk, ih]

theorem lookupRec_setRec_ne (s : LocalStore) (k k' : String) (r : CounterRecord)
    (h : k' ≠ k) : lookupRec (setRec s k r) k' = lookupRec s k' := by
  induction s with
  | nil => simp [setRec, lookupRec, Ne.symm h]
  | cons hd tl ih =>
      obtain ⟨k0, r0⟩ := hd
      by_cases hk : k0 = k
      · simp [setRec, lookupRec, hk, Ne.symm h]
      · simp [setRec, lookupRec, hk, ih]

theorem increment_preserves_other (s : LocalStore) (k k' : String) (w now : Nat)
    (h : k' ≠ k) :
    lookupRec (LocalStore.increment s k w now).1 k' = lookupRec s k' := by
  unfold LocalStore.increment
  cases hl : lookupRec s k with
  | none => simpa using lookupRec_setRec_ne s k k' _ h
  | some r =>
      by_cases ht : now > r.expiresAt
      · simp only [ht, if_pos]
        simpa using lookupRec_setRec_ne s k k' _ h
      · simp only [ht, if_neg, if_false]
        simpa using lookupRec_setRec_ne s k k' _ h

theorem string_append_cancel_right (a b c : String) (h : a ++ c = b ++ c) : a = b := by
  have hd : (a ++ c).data = (b ++ c).data := by rw [h]
  simp only [String.data_append] at hd
  exact String.ext (List.append_cancel_right hd)

theorem guardFails_of_ne (u : ReqUser) (userId : String)
    (h1 : u.id ≠ userId) (h2 : u.role ≠ "admin") : guardFails u userId = true := by
  simp only [guardFails, Bool.and_eq_true, bne_iff_ne]
  exact ⟨h1, h2⟩

/-! ## Claim theorems -/

/-- C1 (counterexample): the claim that every accepted request passes
through the RateLimiter middleware before the business route handlers is
false on this code: a request dispatched to the auth router passes through
no rate limiter, because `app.use(rateLimiter)` is commented out in
`app.js`. -/
theorem c1_counterexample :
    AppStep.rateLimiter ∉ stepsBefore AppStep.authRouter := by decide

/-- C1 (amended): the Express app registers no rate-limiting middleware at
all — `AppStep.rateLimiter` appears nowhere in the pipeline, so requests
reach each of the auth, articles, users and live-news routers without the
RateLimiter running. -/
theorem c1_no_rate_limiter :
    AppStep.rateLimiter ∉ appPipeline ∧
    (businessRouters.all
      (fun r => !((stepsBefore r).contains AppStep.rateLimiter))) = true := by
  decide

/-- C2: fixed-window quota enforcement and reset. For the policy
`windowMs = 60000, max = 5`, six requests with the same key early in one
window are allowed five times and denied on the sixth with
`retryAfter = 60` seconds; and for any key whose window has expired
(`now > expiresAt`), the next increment replaces the record with
`{count := 1, expiresAt := now + windowMs}` and reports `totalHits = 1`. -/
theorem c2_window_enforcement_and_reset :
    (runRequests
        { windowMs := 60000, max := 5, scope := "general", message := "Too many requests" }
        "general:1.2.3.4" [0, 1, 2, 3, 4, 5] [] =
      [Outcome.allow 4 60, Outcome.allow 3 60, Outcome.allow 2 60,
       Outcome.allow 1 60, Outcome.allow 0 60,
       Outcome.deny 429 "Too many requests" "RATE_LIMIT_EXCEEDED" 60]) ∧
    (∀ (s : LocalStore) (key : String) (w now : Nat) (r : CounterRecord),
      lookupRec s key = some r → now > r.expiresAt →
        (LocalStore.increment s key w now).2.totalHits = 1 ∧
        lookupRec (LocalStore.increment s key w now).1 key =
          some { count := 1, expiresAt := now + w }) := by
  constructor
  · decide
  · intro s key w now r hl ht
    have hstep : LocalStore.increment s key w now =
        (setRec s key { count := 1, expiresAt := now + w },
         { totalHits := 1, timeRemaining := w }) := by
      unfold LocalStore.increment
      rw [hl]
      simp [ht]
    rw [hstep]
    exact ⟨rfl, lookupRec_setRec_self s key _⟩

/-- C2 witness: a concrete expired record is reset by the next increment. -/
theorem c2_witness :
    (LocalStore.increment [("k", { count := 3, expiresAt := 5 })] "k" 1000 10).2.totalHits = 1 ∧
    lookupRec (LocalStore.increment [("k", { count := 3, expiresAt := 5 })] "k" 1000 10).1 "k" =
      some { count := 1, expiresAt := 1010 } :=
  c2_window_enforcement_and_reset.2 [("k", { count := 3, expiresAt := 5 })] "k" 1000 10
    { count := 3, expiresAt := 5 } (by decide) (by decide)

/-- C7: when the REDIS_URL environment variable is absent, `connectRedis`
returns null without attempting a connection, without throwing, and without
touching the module state — local-only mode is a supported configuration. -/
theorem c7_absent_url_is_local_only (connOk : Bool) (m : RedisModule) :
    connectRedis none connOk m =
      ({ result := none, attempted := false, threw := false }, m) := by
  simp [connectRedis, resolveRedisUrl]

/-- C8: the store connection is a lazily constructed process-wide singleton:
calling `getRedis` again after any call returns the very same handle and
state (no second construction); the first call from the initial null state
performs exactly one construction; and every connection lifecycle event is
surfaced as a log entry, never as a raised exception. -/
theorem c8_get_redis_singleton :
    (∀ m : RedisModule, getRedis (getRedis m).2 = getRedis m) ∧
    (∀ m : RedisModule, m.redis = none →
      (getRedis m).2.constructed = m.constructed + 1) ∧
    (∀ e : RedisEvent, ∃ lvl msg, redisEventHandler e = EventEffect.logged lvl msg) := by
  refine ⟨?_, ?_, ?_⟩
  · intro m
    cases hm : m.redis with
    | some h => simp [getRedis, hm]
    | none => simp [getRedis, createRedisConnection, hm]
  · intro m hm
    simp [getRedis, createRedisConnection, hm]
  · intro e
    cases e <;> exact ⟨_, _, rfl⟩

/-- C8 witness: starting from the initial `let redis = null` state, the
first `getRedis` call constructs exactly one client. -/
theorem c8_witness :
    (getRedis initialRedisModule).2.constructed = initialRedisModule.constructed + 1 :=
  c8_get_redis_singleton.2.1 initialRedisModule rfl

/-- C10: outside development mode, `forgotPassword` answers identically
(status 200, the same non-revealing body, no reset token) whether or not the
email matches an existing account. -/
theorem c10_forgot_password_noninterference (nodeEnv : String)
    (h : nodeEnv ≠ "development") (u : UserAcct) (tokenFor : UserAcct → String) :
    forgotPassword nodeEnv (some u) tokenFor = forgotPassword nodeEnv none tokenFor ∧
    forgotPassword nodeEnv (some u) tokenFor =
      { status := 200, message := "If the email exists, a reset link has been sent",
        resetToken := none } := by
  simp [forgotPassword, h]

/-- C10 witness: in production mode the responses for a matching and a
non-matching email coincide. -/
theorem c10_witness :
    forgotPassword "production" (some { email := "user@example.com" }) (fun _ => "token") =
      forgotPassword "production" none (fun _ => "token") :=
  (c10_forgot_password_noninterference "production" (by decide)
    { email := "user@example.com" } (fun _ => "token")).1

/-- C3: store and cache I/O failures never propagate to the caller — on any
backend I/O error `increment` returns the allow result with
`totalHits = 1`; consequently the limiter allows the request (for any policy
with a positive quota) exactly as if it were under quota; and the cache
reports a miss rather than raising. -/
theorem c3_store_failures_fail_open :
    (∀ (b : Backend) (key : String) (w : Nat) (msg : String),
        b key w = IOResult.ioError msg →
        distIncrement b key w = { totalHits := 1, timeRemaining := w }) ∧
    (∀ (p : Policy) (b : Backend) (key : String) (msg : String),
        b key p.windowMs = IOResult.ioError msg → 1 ≤ p.max →
        distLimitStep p b key = Outcome.allow (p.max - 1) (msToSec p.windowMs)) ∧
    (∀ (α : Type) (key : String),
        cacheGet (CacheBackend.down : CacheBackend α) key = none) := by
  refine ⟨?_, ?_, ?_⟩
  · intro b key w msg h
    unfold distIncrement
    rw [h]
  · intro p b key msg h hmax
    unfold distLimitStep distIncrement
    rw [h]
    simp [hmax]
  · intro α key
    rfl

/-- C3 witness: against a backend that always fails, a limiter with quota 5
over a one-minute window allows the request with a full quota view. -/
theorem c3_witness :
    distIncrement (fun _ _ => IOResult.ioError "connection refused") "k" 60000 =
      { totalHits := 1, timeRemaining := 60000 } ∧
    distLimitStep
        { windowMs := 60000, max := 5, scope := "general", message := "Too many requests" }
        (fun _ _ => IOResult.ioError "connection refused") "k" =
      Outcome.allow 4 60 :=
  ⟨c3_store_failures_fail_open.1 (fun _ _ => IOResult.ioError "connection refused")
      "k" 60000 "connection refused" rfl,
   c3_store_failures_fail_open.2.1
      { windowMs := 60000, max := 5, scope := "general", message := "Too many requests" }
      (fun _ _ => IOResult.ioError "connection refused") "k" "connection refused" rfl
      (by decide)⟩

/-- C4: the deny contract — a request is denied exactly when the incremented
count exceeds the quota; the denial is the HTTP 429 short-circuit carrying
the policy message, the code RATE_LIMIT_EXCEEDED and `retryAfter` equal to
the remaining window time in seconds; an allowed request instead carries the
remaining quota (`max - totalHits`, floored at 0 by Nat subtraction) and the
reset time. -/
theorem c4_deny_contract (p : Policy) (s : LocalStore) (key : String) (now : Nat) :
    (Outcome.isDeny (limitStep p s key now).2 = true ↔
      p.max < (LocalStore.increment s key p.windowMs now).2.totalHits) ∧
    (p.max < (LocalStore.increment s key p.windowMs now).2.totalHits →
      (limitStep p s key now).2 =
        Outcome.deny 429 p.message "RATE_LIMIT_EXCEEDED"
          (msToSec (LocalStore.increment s key p.windowMs now).2.timeRemaining)) ∧
    ((LocalStore.increment s key p.windowMs now).2.totalHits ≤ p.max →
      (limitStep p s key now).2 =
        Outcome.allow (p.max - (LocalStore.increment s key p.windowMs now).2.totalHits)
          (msToSec (LocalStore.increment s key p.windowMs now).2.timeRemaining)) := by
  by_cases h : (LocalStore.increment s key p.windowMs now).2.totalHits ≤ p.max
  · refine ⟨?_, ?_, ?_⟩
    · simp [limitStep, h, Outcome.isDeny]
    · intro hgt
      omega
    · intro _
      simp [limitStep, h]
  · refine ⟨?_, ?_, ?_⟩
    · simp [limitStep, h, Outcome.isDeny]
      omega
    · intro _
      simp [limitStep, h]
    · intro hle
      omega

/-- C4 witness: with quota 5 and a one-minute window, the sixth hit within
the window is denied with the full contract fields, and a first hit is
allowed with 4 remaining. -/
theorem c4_witness :
    (limitStep
        { windowMs := 60000, max := 5, scope := "general", message := "Too many requests" }
        [("general:ip", { count := 5, expiresAt := 60000 })] "general:ip" 0).2 =
      Outcome.deny 429 "Too many requests" "RATE_LIMIT_EXCEEDED" 60 ∧
    (limitStep
        { windowMs := 60000, max := 5, scope := "general", message := "Too many requests" }
        [] "general:ip" 0).2 =
      Outcome.allow 4 60 :=
  ⟨(c4_deny_contract
      { windowMs := 60000, max := 5, scope := "general", message := "Too many requests" }
      [("general:ip", { count := 5, expiresAt := 60000 })] "general:ip" 0).2.1 (by decide),
   (c4_deny_contract
      { windowMs := 60000, max := 5, scope := "general", message := "Too many requests" }
      [] "general:ip" 0).2.2 (by decide)⟩

/-- C5: cache fail-open — with the backend unavailable, `get` always reports
absent, `set` is a no-op that never raises, and `getSavedArticles` (a
cache-aside consumer) still returns exactly the freshly computed paginated
response for the request. -/
theorem c5_cache_fail_open :
    (∀ (α : Type) (key : String),
        cacheGet (CacheBackend.down : CacheBackend α) key = none) ∧
    (∀ (α : Type) (key : String) (v : α) (ttl : Nat),
        cacheSet CacheBackend.down key v ttl = CacheBackend.down) ∧
    (∀ (db : Db) (userId : String) (q : PageQuery),
        getSavedArticles db CacheBackend.down userId q =
          ({ ops := [DbOp.readOp "SavedArticle.getUserSavedArticles",
                     DbOp.readOp "SavedArticle.countDocuments"],
             result := Except.ok (freshSavedResponse db userId q) },
           CacheBackend.down)) :=
  ⟨fun _ _ => rfl, fun _ _ _ _ => rfl, fun _ _ _ => rfl⟩

/-- C6: key isolation — distinct policy scopes compose with the same raw
identity to distinct keys, and an increment under one scope leaves the
counter record observed under the other scope unchanged. -/
theorem c6_key_isolation (scopeA scopeB identity : String) (h : scopeA ≠ scopeB) :
    composeKey scopeA identity ≠ composeKey scopeB identity ∧
    ∀ (s : LocalStore) (w now : Nat),
      lookupRec (LocalStore.increment s (composeKey scopeA identity) w now).1
          (composeKey scopeB identity) =
        lookupRec s (composeKey scopeB identity) := by
  have hkey : composeKey scopeA identity ≠ composeKey scopeB identity := by
    intro he
    apply h
    have h1 : scopeA ++ ":" = scopeB ++ ":" :=
      string_append_cancel_right (scopeA ++ ":") (scopeB ++ ":") identity he
    exact string_append_cancel_right scopeA scopeB ":" h1
  exact ⟨hkey, fun s w now =>
    increment_preserves_other s (composeKey scopeA identity)
      (composeKey scopeB identity) w now (Ne.symm hkey)⟩

/-- C6 witness: the auth and search scopes never share a counter for the
same client address. -/
theorem c6_witness :
    composeKey "auth" "1.2.3.4" ≠ composeKey "search" "1.2.3.4" ∧
    lookupRec
        (LocalStore.increment [] (composeKey "auth" "1.2.3.4") 60000 0).1
        (composeKey "search" "1.2.3.4") =
      lookupRec [] (composeKey "search" "1.2.3.4") :=
  ⟨(c6_key_isolation "auth" "search" "1.2.3.4" (by decide)).1,
   (c6_key_isolation "auth" "search" "1.2.3.4" (by decide)).2 [] 60000 0⟩

/-- C9: the per-user access guard — in each of the six per-user handlers,
when the authenticated caller is neither the target user nor an admin the
handler fails with 403 AUTHORIZATION_ERROR having issued no database read or
write, leaving all state (including the cache) unchanged. -/
theorem c9_per_user_guard :
    (∀ (db : Db) (u : ReqUser) (userId articleId : String),
        u.id ≠ userId → u.role ≠ "admin" →
        isArticleSaved db u userId articleId =
          { ops := [], result := Except.error accessDenied }) ∧
    (∀ (db : Db) (u : ReqUser) (userId : String),
        u.id ≠ userId → u.role ≠ "admin" →
        getPreferences db u userId = { ops := [], result := Except.error accessDenied }) ∧
    (∀ (db : Db) (u : ReqUser) (userId : String) (prefs : Option UserPrefs)
        (interests : Option (List String)),
        u.id ≠ userId → u.role ≠ "admin" →
        updatePreferences db u userId prefs interests =
          { ops := [], result := Except.error accessDenied }) ∧
    (∀ (db : Db) (cache : CacheBackend StatsResp) (u : ReqUser) (userId : String),
        u.id ≠ userId → u.role ≠ "admin" →
        getUserStats db cache u userId =
          ({ ops := [], result := Except.error accessDenied }, cache)) ∧
    (∀ (db : Db) (u : ReqUser) (userId : String) (period : Nat),
        u.id ≠ userId → u.role ≠ "admin" →
        getUserAnalytics db u userId period =
          { ops := [], result := Except.error accessDenied }) ∧
    (∀ (db : Db) (cache : CacheBackend RecResp) (u : ReqUser) (userId : String) (lim : Nat),
        u.id ≠ userId → u.role ≠ "admin" →
        getRecommendations db cache u userId lim =
          ({ ops := [], result := Except.error accessDenied }, cache)) := by
  refine ⟨?_, ?_, ?_, ?_, ?_, ?_⟩
  · intro db u userId articleId h1 h2
    simp [isArticleSaved, guardFails_of_ne u userId h1 h2]
  · intro db u userId h1 h2
    simp [getPreferences, guardFails_of_ne u userId h1 h2]
  · intro db u userId prefs interests h1 h2
    simp [updatePreferences, guardFails_of_ne u userId h1 h2]
  · intro db cache u userId h1 h2
    simp [getUserStats, guardFails_of_ne u userId h1 h2]
  · intro db u userId period h1 h2
    simp [getUserAnalytics, guardFails_of_ne u userId h1 h2]
  · intro db cache u userId lim h1 h2
    simp [getRecommendations, guardFails_of_ne u userId h1 h2]

/-- C9 witness: a non-admin caller targeting a different user id is rejected
with 403 by each of the six handlers, with no database operation recorded. -/
theorem c9_witness :
    isArticleSaved db0 { id := "u1", role := "user" } "u2" "a1" =
      { ops := [], result := Except.error accessDenied } ∧
    getPreferences db0 { id := "u1", role := "user" } "u2" =
      { ops := [], result := Except.error accessDenied } ∧
    updatePreferences db0 { id := "u1", role := "user" } "u2" none none =
      { ops := [], result := Except.error accessDenied } ∧
    getUserStats db0 CacheBackend.down { id := "u1", role := "user" } "u2" =
      ({ ops := [], result := Except.error accessDenied }, CacheBackend.down) ∧
    getUserAnalytics db0 { id := "u1", role := "user" } "u2" 30 =
      { ops := [], result := Except.error accessDenied } ∧
    getRecommendations db0 CacheBackend.down { id := "u1", role := "user" } "u2" 10 =
      ({ ops := [], result := Except.error accessDenied }, CacheBackend.down) :=
  ⟨c9_per_user_guard.1 db0 { id := "u1", role := "user" } "u2" "a1" (by decide) (by decide),
   c9_per_user_guard.2.1 db0 { id := "u1", role := "user" } "u2" (by decide) (by decide),
   c9_per_user_guard.2.2.1 db0 { id := "u1", role := "user" } "u2" none none
     (by decide) (by decide),
   c9_per_user_guard.2.2.2.1 db0 CacheBackend.down { id := "u1", role := "user" } "u2"
     (by decide) (by decide),
   c9_per_user_guard.2.2.2.2.1 db0 { id := "u1", role := "user" } "u2" 30
     (by decide) (by decide),
   c9_per_user_guard.2.2.2.2.2 db0 CacheBackend.down { id := "u1", role := "user" } "u2" 10
     (by decide) (by decide)⟩

end NewsAgg
